import Mathlib

/-!
# Verification of the iconix icon-patching pipeline

Shallow embedding of the two Python scripts `iconix.py` and `patch.py`
(project "iconix"): the size-specifier parser, the image-source
abstraction, the resize pipeline, the downloader and the install loop's
effect trace, together with theorems settling the specification claims.

External collaborators (Pillow's decoder/resampler, CairoSVG, the HTTP
stack, the filesystem) are modelled as explicit function parameters or as
abstract data, exactly at the boundary where the scripts call them.
-/

deriving instance DecidableEq for Except

namespace Iconix

/-! ## Size specifier parser (`iconix.py`, `IconSize.__init__`)

The Python constructor validates a string with
`re.search(r"^(\d+)(?:x\1(?:@(\d+))?)?$", size)` and then checks
evenness/positivity.  Three points of CPython regex semantics matter:

* `^` without `re.MULTILINE` matches only at position 0, and `$` matches
  at the end of the string or just before one trailing `'\n'`.  The
  pattern's own characters can never match a newline, so the regex
  matches the string exactly when the pattern fully matches the string
  with one final newline (if any) discarded.
* `\d` on a `str` pattern is the Unicode decimal-digit class `Nd`, not
  just ASCII: 660 code points in 66 aligned blocks of ten consecutive
  characters with decimal values 0 through 9 (Unicode 14.0 tables, as
  shipped with CPython 3.11; later Unicode versions add further blocks).
  `int(s, 10)` likewise accepts every `Nd` digit, using the same
  per-character decimal value.
* `(\d+)` is greedy and the pattern is anchored, so group 1 always
  captures the maximal leading run of digits: a shorter capture would
  leave a digit as the next character, where the pattern demands `x` or
  `$`, so backtracking can never produce a different match.  The
  embedding below therefore takes the maximal digit prefix of the
  newline-stripped string and matches the remainder against the three
  literal shapes, the backreference `x\1` comparing group 1's exact
  character sequence. -/

/-- Start code points of the Unicode `Nd` decimal-digit blocks (Unicode
14.0, the tables CPython's `re` and `int` use): every `\d` character lies
in exactly one aligned block of ten consecutive code points whose decimal
values run 0 through 9. -/
def ndBlockStarts : List Nat :=
  0x30 ::
  [0x660, 0x6F0, 0x7C0, 0x966, 0x9E6, 0xA66, 0xAE6,
   0xB66, 0xBE6, 0xC66, 0xCE6, 0xD66, 0xDE6, 0xE50, 0xED0,
   0xF20, 0x1040, 0x1090, 0x17E0, 0x1810, 0x1946, 0x19D0, 0x1A80,
   0x1A90, 0x1B50, 0x1BB0, 0x1C40, 0x1C50, 0xA620, 0xA8D0, 0xA900,
   0xA9D0, 0xA9F0, 0xAA50, 0xABF0, 0xFF10, 0x104A0, 0x10D30, 0x11066,
   0x110F0, 0x11136, 0x111D0, 0x112F0, 0x11450, 0x114D0, 0x11650, 0x116C0,
   0x11730, 0x118E0, 0x11950, 0x11C50, 0x11D50, 0x11DA0, 0x16A60, 0x16AC0,
   0x16B50, 0x1D7CE, 0x1D7D8, 0x1D7E2, 0x1D7EC, 0x1D7F6, 0x1E140, 0x1E2F0,
   0x1E950, 0x1FBF0]

/-- Decimal value of a character under Python's `\d` and `int`: `some v`
when the character is a Unicode decimal digit of value `v`, else `none`. -/
def pyDigitVal (c : Char) : Option Nat :=
  (ndBlockStarts.find? fun r => decide (r ≤ c.toNat ∧ c.toNat ≤ r + 9)).map
    fun r => c.toNat - r

/-- Python's `\d` character class on `str` patterns. -/
def pyIsDigit (c : Char) : Bool :=
  (pyDigitVal c).isSome

/-- Value of a digit string, as Python's `int(s, 10)` computes it: each
character contributes its own decimal value (leading zeros and mixed
digit scripts allowed). -/
def digitsVal (cs : List Char) : Nat :=
  cs.foldl (fun a c => a * 10 + (pyDigitVal c).getD 0) 0

/-- The effect of Python's `$` anchor under `re.search` without
`re.MULTILINE`: the anchored pattern fully matches the string with one
trailing `'\n'`, if present, discarded. -/
def stripTrailingNewline (cs : List Char) : List Char :=
  match cs.getLast? with
  | some c => if c = '\n' then cs.dropLast else cs
  | none => cs

/-- Result of matching a token against `^(\d+)(?:x\1(?:@(\d+))?)?$` under
CPython semantics: `none` when the regex does not match, otherwise the
numeric value of group 1 and (when present) of group 2.  One trailing
newline is discarded (`$`), digits are Unicode decimal digits (`\d`), and
the backreference `\1` compares the text of group 1, so the characters
after `x` must repeat the leading digit run verbatim. -/
def extractSizeToken (cs : List Char) : Option (Nat × Option Nat) :=
  let core := stripTrailingNewline cs
  let ds := core.takeWhile pyIsDigit
  let rest := core.dropWhile pyIsDigit
  if ds.isEmpty then none
  else
    match rest with
    | [] => some (digitsVal ds, none)
    | 'x' :: r2 =>
      if r2.take ds.length = ds then
        match r2.drop ds.length with
        | [] => some (digitsVal ds, none)
        | '@' :: s =>
          if !s.isEmpty && s.all pyIsDigit then
            some (digitsVal ds, some (digitsVal s))
          else none
        | _ => none
      else none
    | _ => none

/-- The four distinct `ValueError` messages `IconSize.__init__` can raise:
"Invalid size specifier", "Size must be an even number", "Size must be a
positive number", "Scale must be a positive number". -/
inductive SizeError where
  | invalidFormat
  | sizeNotEven
  | sizeNotPositive
  | scaleNotPositive
deriving DecidableEq, Repr

/-- The spec's three failure kinds group the two size messages together. -/
def SizeError.isInvalidSize : SizeError → Bool
  | .sizeNotEven => true
  | .sizeNotPositive => true
  | _ => false

/-- `IconSize`: a parsed and validated icon size. -/
structure IconSize where
  size : Nat
  scale : Nat
deriving DecidableEq, Repr

/-- `IconSize.__init__` on a string argument (the `type=IconSize` argparse
path), with the default `scale=1`: regex match, then the evenness check,
the positivity check on size, and the positivity check on scale, in the
order the Python code performs them.  Sizes and scales extracted from
digit strings are naturals, so "not strictly positive" is exactly zero. -/
def IconSize.ofString (s : String) : Except SizeError IconSize :=
  match extractSizeToken s.toList with
  | none => .error .invalidFormat
  | some (n, oscale) =>
    let scale := oscale.getD 1
    if n % 2 ≠ 0 then .error .sizeNotEven
    else if n = 0 then .error .sizeNotPositive
    else if scale = 0 then .error .scaleNotPositive
    else .ok ⟨n, scale⟩

/-- `IconSize.get_name`: the icon-theme directory name of a size,
`"{size}x{size}"` when `scale <= 1`, else `"{size}x{size}@{scale}"`. -/
def IconSize.get_name (s : IconSize) : String :=
  if s.scale ≤ 1 then
    toString s.size ++ "x" ++ toString s.size
  else
    toString s.size ++ "x" ++ toString s.size ++ "@" ++ toString s.scale

/-- `IconSize.__lt__`: compare by `size`, breaking ties by `scale`. -/
def IconSize.lt (a b : IconSize) : Bool :=
  if a.size = b.size then a.scale < b.scale else a.size < b.size

/-- Insert an element into a list that is already sorted for
`IconSize.lt`, keeping it after every element it is not strictly below.
Python's `list.sort()` is a stable sort driven by `__lt__`; since an
`IconSize` consists of exactly the two compared fields, elements that
compare equal are identical values and any `__lt__`-respecting sort
returns the same list. -/
def insertSorted (x : IconSize) : List IconSize → List IconSize
  | [] => [x]
  | y :: ys => if IconSize.lt x y then x :: y :: ys else y :: insertSorted x ys

/-- The effect of `target_icon_sizes.sort()` in `convert_args_to_settings`. -/
def pySort (l : List IconSize) : List IconSize :=
  l.foldr insertSorted []

/-- The size-list resolution step of `convert_args_to_settings` on the
`--size` token path: each token is parsed by `IconSize(raw_size)` (argparse
invokes the constructor per token; the first failure aborts), and the
resulting list is sorted in place. -/
def resolveIconSizes (tokens : List String) : Except SizeError (List IconSize) := do
  let sizes ← tokens.mapM IconSize.ofString
  pure (pySort sizes)

/-! ## Icon theme paths (`get_xdg_data_home` and the install loop)

`pathlib.Path` values are modelled as plain strings; `a / b` joins with a
single separator, which matches `pathlib` on the absolute, slash-free
segments the script uses. -/

/-- `get_xdg_data_home`: the `XDG_DATA_HOME` environment variable when set
and non-empty (Python truthiness of a string), else `$HOME/.local/share`. -/
def get_xdg_data_home (env : Option String) (home : String) : String :=
  match env with
  | some s => if s = "" then home ++ "/.local/share" else s
  | none => home ++ "/.local/share"

/-- `icon_theme_dir = xdg_data_home / "icons/hicolor"`. -/
def iconThemeDir (env : Option String) (home : String) : String :=
  get_xdg_data_home env home ++ "/icons/hicolor"

/-- `icon_parent_dir = icon_theme_dir / f"{icon_size_name}/{icon_context}"`
with `icon_context = "apps"`. -/
def iconParentDir (themeDir : String) (sz : IconSize) : String :=
  themeDir ++ "/" ++ sz.get_name ++ "/apps"

/-- `icon_target_file = icon_parent_dir / f"{target_icon_name}.png"`. -/
def iconTargetFile (themeDir : String) (sz : IconSize) (name : String) : String :=
  iconParentDir themeDir sz ++ "/" ++ name ++ ".png"

/-! ## Image source abstraction (`IconImage`)

Byte buffers (`io.BytesIO`) carry their data and a read position.  Inside
`IconImage` every read in the Python code is preceded by
`rewind_raw_bytes()` (a `seek(0)`), so the position never influences
behaviour there and the embedding leaves it untouched; the position is
tracked where a contract observes it (the downloader's return value).

Decoded Pillow images are modelled by their dimensions and an opaque list
of pixel values; Pillow's `Image.copy()` returns an image with identical
pixel data, so it is the identity on this model.  The decoder and the
resampler are external collaborators and enter as function parameters. -/

/-- An in-memory byte buffer (`io.BytesIO`): contents plus seek position. -/
structure ByteBuf where
  data : List Nat
  pos : Nat
deriving DecidableEq, Repr

/-- A decoded raster image (Pillow `Image.Image`): dimensions plus pixel
data. -/
structure PILImage where
  width : Nat
  height : Nat
  pixels : List Nat
deriving DecidableEq, Repr

/-- Pillow's `Image.copy()`: a new image with identical pixel content,
i.e. the identity on the pure image value. -/
def PILImage.copy (i : PILImage) : PILImage := i

/-- Pillow resampling filters (`Image.Resampling`). -/
inductive Resampling where
  | nearest
  | box
  | bilinear
  | hamming
  | bicubic
  | lanczos
deriving DecidableEq, Repr

/-- Characters of a path after its last slash (the final component). -/
def afterLastSlash (cs : List Char) : List Char :=
  cs.foldl (fun acc c => if c = '/' then [] else acc ++ [c]) []

/-- `get_file_suffix` helper: `pathlib.Path.suffix` of the path's final
component, lower-cased.  `Path.suffix` returns the final component's text
from its last dot on, unless that dot is the first or the last character
of the component, in which case it returns the empty string. -/
def pathFinalComponent (p : String) : String :=
  String.mk (afterLastSlash p.toList)

/-- Index of the last `'.'` in a character list, if any. -/
def lastDotIndex (cs : List Char) : Option Nat :=
  ((List.range cs.length).filter fun i => cs.getD i ' ' = '.').getLast?

/-- `pathlib.Path.suffix` on the modelled path. -/
def pathSuffix (p : String) : String :=
  let cs := (pathFinalComponent p).toList
  match lastDotIndex cs with
  | some i => if 0 < i ∧ i < cs.length - 1 then String.mk (cs.drop i) else ""
  | none => ""

/-- Python's `str.lower()` applied per character (the suffixes in play
are ASCII, where this agrees with Python's Unicode lowering). -/
def strLower (s : String) : String :=
  String.mk (s.toList.map Char.toLower)

/-- `get_file_suffix(file)`: `file.suffix.lower()`. -/
def get_file_suffix (p : String) : String :=
  strLower (pathSuffix p)

/-- The bytes of the case-sensitive `<svg` marker sniffed by `is_svg`. -/
def svgMarker : List Nat := [60, 115, 118, 103]

/-- Python's `needle in haystack` on byte strings: contiguous substring
search. -/
def bytesContain (needle : List Nat) : List Nat → Bool
  | [] => needle.isPrefixOf []
  | h :: t => needle.isPrefixOf (h :: t) || bytesContain needle t

/-- `IconImage` after construction: identifier and the three optional
inputs (exactly one was supplied; loading may have filled in others). -/
structure IconImage where
  id : String
  path : Option String
  raw_bytes : Option ByteBuf
  img : Option PILImage
deriving DecidableEq, Repr

/-- `IconImage.is_svg`: when a path is known, trust its lower-cased suffix
being `".svg"`; otherwise, when raw bytes are present, rewind and sniff
the first 4096 bytes for the case-sensitive `<svg` marker; otherwise
`False`.  (The Python code memoizes the result in `_is_svg`; the cached
value equals this pure function of the construction inputs.) -/
def IconImage.is_svg (self : IconImage) : Bool :=
  match self.path with
  | some p => get_file_suffix p == ".svg"
  | none =>
    match self.raw_bytes with
    | some b => bytesContain svgMarker (b.data.take 4096)
    | none => false

/-- `IconImage.get_image_size`: SVG sources report the sentinel `(-1, -1)`;
raster sources report the decoded image's dimensions, raising when no
image was loaded. -/
def IconImage.get_image_size (self : IconImage) : Except String (Int × Int) :=
  if self.is_svg then .ok (-1, -1)
  else
    match self.img with
    | none => .error "IconImage doesn't contain any Image data."
    | some i => .ok (i.width, i.height)

/-- `IconImage.resize_image_as_copy`: for SVG sources, rewind the raw
bytes and rasterize at exactly the target dimensions via CairoSVG
(`svg2png`), then decode the produced PNG with Pillow (`pilOpen`); for
raster sources, return `self.img.copy()` when the current dimensions
already equal the target, else `self.img.resize(...)` with the given
filter (`pilResize`).  Returns the produced image together with the
source object after the call (the raster branches never touch it; the
SVG branch's buffer, rewound and then fully consumed by CairoSVG, ends
positioned at its end). -/
def IconImage.resize_image_as_copy
    (svg2png : List Nat → Nat → Nat → Option (List Nat))
    (pilOpen : List Nat → Option PILImage)
    (pilResize : PILImage → Nat → Nat → Resampling → PILImage)
    (self : IconImage) (icon_size : IconSize) (resample : Resampling) :
    Except String (PILImage × IconImage) :=
  let width := icon_size.size
  let height := icon_size.size
  if self.is_svg then
    match self.raw_bytes with
    | none => .error "IconImage doesn't contain any SVG raw bytes data."
    | some buf =>
      match svg2png buf.data width height with
      | none => .error "cairosvg failed to rasterize the SVG data."
      | some png =>
        match pilOpen png with
        | none => .error "Pillow failed to load the rasterized PNG."
        | some img =>
          .ok (img, { self with raw_bytes := some ⟨buf.data, buf.data.length⟩ })
  else
    match self.get_image_size with
    | .error e => .error e
    | .ok (cw, ch) =>
      match self.img with
      | none => .error "assert self.img is not None"
      | some im =>
        if cw = (width : Int) ∧ ch = (height : Int) then
          .ok (im.copy, self)
        else
          .ok (pilResize im width height resample, self)

/-- The install loop calls `resize_image_as_copy(icon_size)` without a
filter argument, so Python's default `Image.Resampling.LANCZOS` applies. -/
def IconImage.resize_image_as_copy_default
    (svg2png : List Nat → Nat → Nat → Option (List Nat))
    (pilOpen : List Nat → Option PILImage)
    (pilResize : PILImage → Nat → Nat → Resampling → PILImage)
    (self : IconImage) (icon_size : IconSize) :
    Except String (PILImage × IconImage) :=
  self.resize_image_as_copy svg2png pilOpen pilResize icon_size .lanczos

/-! ## IconImage construction (`IconImage.__post_init__`) -/

/-- The fatal errors `__post_init__` (and the loaders it calls) can raise. -/
inductive ImgError where
  | invalidConstruction
  | fileReadError
  | noRawBytes
  | decodeError
  | emptyBuffer
deriving DecidableEq, Repr

/-- Number of constructor inputs that were supplied. -/
def inputCount (path : Option String) (rawBytes : Option ByteBuf)
    (img : Option PILImage) : Nat :=
  (if path.isSome then 1 else 0) + (if rawBytes.isSome then 1 else 0) +
    (if img.isSome then 1 else 0)

/-- `IconImage(...)` construction, i.e. `__post_init__`:
reject unless exactly one of path/raw_bytes/img was supplied; read the
file into raw bytes when only a path was given (`readFile` is the
filesystem, failing like `Path.read_bytes` on I/O errors); eagerly decode
non-SVG raw bytes with Pillow (`decode`, failing like `Image.open` +
`load` on corrupt data); finally reject a supplied-but-empty raw byte
buffer. -/
def mkIconImage (readFile : String → Option (List Nat))
    (decode : List Nat → Option PILImage)
    (id : String) (path : Option String) (rawBytes : Option ByteBuf)
    (img : Option PILImage) : Except ImgError IconImage :=
  if inputCount path rawBytes img ≠ 1 then .error .invalidConstruction
  else
    let loaded : Except ImgError (Option ByteBuf) :=
      if img.isNone && rawBytes.isNone then
        match path with
        | some p =>
          match readFile p with
          | some bs => .ok (some ⟨bs, 0⟩)
          | none => .error .fileReadError
        | none => .ok rawBytes
      else .ok rawBytes
    match loaded with
    | .error e => .error e
    | .ok raw2 =>
      let self1 : IconImage := ⟨id, path, raw2, img⟩
      let step2 : Except ImgError IconImage :=
        if self1.img.isNone && !self1.is_svg then
          match self1.raw_bytes with
          | none => .error .noRawBytes
          | some b =>
            match decode b.data with
            | some i => .ok { self1 with img := some i }
            | none => .error .decodeError
        else .ok self1
      match step2 with
      | .error e => .error e
      | .ok self2 =>
        match self2.raw_bytes with
        | some b => if b.data.length = 0 then .error .emptyBuffer else .ok self2
        | none => .ok self2

/-! ## Downloader (`download_with_progress`)

The HTTP client is an external collaborator; a completed response is its
status code, optional `Content-Length` header, and body.  `response.read(n)`
returns the next `min(n, remaining)` bytes, and the loop appends each
chunk to an in-memory buffer until a read returns nothing.  Progress
printing does not affect the returned value and is omitted from this
model.  (`patch.py` has the same loop but reports a non-200 status by
returning `None` instead of raising; the caller exits immediately either
way.) -/

/-- A completed HTTP response. -/
structure HttpResponse where
  code : Nat
  contentLength : Option Nat
  body : List Nat
deriving DecidableEq, Repr

/-- The sequence of chunks the download loop reads: successive
`chunk_size`-byte slices of the body.  A zero `chunk_size` makes the
first read return the empty chunk, ending the loop at once. -/
def readChunks (chunkSize : Nat) (body : List Nat) : List (List Nat) :=
  if chunkSize = 0 ∨ body = [] then []
  else body.take chunkSize :: readChunks chunkSize (body.drop chunkSize)
termination_by body.length
decreasing_by
  simp only [List.length_drop]
  rename_i h
  rcases Nat.eq_zero_or_pos chunkSize with hc | hc
  · exact absurd (Or.inl hc) h
  · have hb : body ≠ [] := fun hb => h (Or.inr hb)
    have : 0 < body.length := List.length_pos.mpr hb
    omega

/-- The downloader's possible fatal outcome. -/
inductive DlError where
  | downloadFailed
deriving DecidableEq, Repr

/-- `download_with_progress`: raise on any non-200 status; otherwise write
every chunk read into a fresh `BytesIO`, then `seek(0)` and return it. -/
def download_with_progress (resp : HttpResponse) (chunkSize : Nat) :
    Except DlError ByteBuf :=
  if resp.code ≠ 200 then .error .downloadFailed
  else .ok ⟨(readChunks chunkSize resp.body).flatten, 0⟩

/-! ## The main script as an effect trace

The top level of `iconix.py` (after `Settings` and the `IconImage` are in
hand) is a straight line: square-geometry check, install loop, cache
notifier, removal-instructions file.  Its observable actions are recorded
as a list of effects in program order.  Purely informational banner
prints are omitted; the per-icon target line, which the spec's simulate
contract is about, is recorded verbatim.  Each resize is recorded as an
event so that ordering claims ("rejected before any resize") are
expressible. -/

/-- One observable action of the script. -/
inductive Effect where
  /-- a line printed to stdout -/
  | print (s : String)
  /-- `resize_image_as_copy` invoked for one target size -/
  | resizeImage (width height : Nat)
  /-- `icon_parent_dir.mkdir(0o755, parents=True, exist_ok=True)` -/
  | mkdir (p : String)
  /-- the PNG written to `icon_target_file` -/
  | writeIcon (p : String)
  /-- `os.utime(p)`: the path's modification timestamp is rewritten -/
  | utime (p : String)
  /-- `subprocess.run([cmd, "-f", "-t", dir])` -/
  | runCacheCmd (cmd : String) (dir : String)
  /-- `removal_text_file.write_text(...)` -/
  | writeText (p : String)
deriving DecidableEq, Repr

/-- One iteration of the install loop: resize, print the target line,
and, unless simulating, create the parent directory and write the PNG. -/
def installStep (simulate : Bool) (themeDir name : String) (sz : IconSize) :
    List Effect :=
  let target := iconTargetFile themeDir sz name
  [Effect.resizeImage sz.size sz.size,
   Effect.print ("- \"" ++ target ++ "\"")] ++
    (if simulate then []
     else [Effect.mkdir (iconParentDir themeDir sz), Effect.writeIcon target])

/-- The install loop over the (already sorted) requested sizes. -/
def installEffects (simulate : Bool) (themeDir name : String)
    (sizes : List IconSize) : List Effect :=
  (sizes.map (installStep simulate themeDir name)).flatten

/-- The cache notifier: always touch the theme directory's timestamp, and
run `gtk-update-icon-cache -f -t <dir>` when that executable is on the
search path.  The script runs this in simulate mode too ("We don't bother
disabling this during simulations"). -/
def cacheNotifierEffects (themeDir : String) (cacheCmdPresent : Bool) :
    List Effect :=
  [Effect.utime themeDir] ++
    (if cacheCmdPresent then [Effect.runCacheCmd "gtk-update-icon-cache" themeDir]
     else [])

/-- Writing `how_to_remove.txt` next to the script, simulate or not. -/
def removalEffects (scriptDir : String) : List Effect :=
  [Effect.writeText (scriptDir ++ "/how_to_remove.txt")]

/-- The whole post-`Settings` run: fetch the source dimensions, reject a
non-square raster with a fatal error (exit 1) before the install loop and
hence before any resize, else run install loop, cache notifier and
removal-file write in order. -/
def runPipeline (img : IconImage) (simulate : Bool) (sizes : List IconSize)
    (name themeDir : String) (cacheCmdPresent : Bool) (scriptDir : String) :
    List Effect :=
  match img.get_image_size with
  | .error e => [Effect.print ("Error: " ++ e)]
  | .ok (w, h) =>
    if !img.is_svg && w ≠ h then
      [Effect.print ("Error: Icon dimensions are not square (" ++ toString w ++
        "x" ++ toString h ++ ")." )]
    else
      installEffects simulate themeDir name sizes ++
        cacheNotifierEffects themeDir cacheCmdPresent ++
        removalEffects scriptDir

/-- Does an effect write to the filesystem, and if so where?  `print`,
`resizeImage` and `runCacheCmd` perform no write of their own (whatever
the external cache command writes is its business). -/
def Effect.fsWritePath : Effect → Option String
  | .mkdir p => some p
  | .writeIcon p => some p
  | .utime p => some p
  | .writeText p => some p
  | _ => none

/-- Is path `p` at or below directory `root`? -/
def pathWithin (root p : String) : Bool :=
  p == root || (root ++ "/").isPrefixOf p

/-- An effect that writes to the filesystem at or below `root`. -/
def Effect.isFsWriteUnder (root : String) (e : Effect) : Bool :=
  match e.fsWritePath with
  | some p => pathWithin root p
  | none => false

/-- The icon-install writes of a trace: directory creations and PNG
writes performed by the install loop. -/
def Effect.isInstallWrite : Effect → Bool
  | .mkdir _ => true
  | .writeIcon _ => true
  | _ => false

/-- The lines printed by a trace, in order. -/
def printedLines (tr : List Effect) : List String :=
  tr.filterMap fun e =>
    match e with
    | .print s => some s
    | _ => none

/-- Is the effect a resize event? -/
def Effect.isResize : Effect → Bool
  | .resizeImage _ _ => true
  | _ => false

/-! ## Lemmas about the size-token parser -/

/-- An ASCII digit is a Unicode digit with its usual value (the ASCII
block `0x30`–`0x39` heads the `Nd` table and no other block overlaps
it). -/
theorem isDigit_pyDigitVal (c : Char) (h : c.isDigit = true) :
    pyDigitVal c = some (c.toNat - 48) := by
  have hb : 48 ≤ c.toNat ∧ c.toNat ≤ 57 := by
    simp only [Char.isDigit, Bool.and_eq_true, decide_eq_true_eq,
      UInt32.le_def] at h
    exact h
  have hp : (fun r => decide (r ≤ c.toNat ∧ c.toNat ≤ r + 9)) 0x30 = true := by
    simp only [decide_eq_true_eq]
    omega
  unfold pyDigitVal ndBlockStarts
  rw [@List.find?_cons_of_pos Nat
    (fun r => decide (r ≤ c.toNat ∧ c.toNat ≤ r + 9)) 0x30 _ hp]
  simp

theorem pyIsDigit_of_isDigit (c : Char) (h : c.isDigit = true) :
    pyIsDigit c = true := by
  unfold pyIsDigit
  rw [isDigit_pyDigitVal c h]
  rfl

theorem pyIsDigit_ne_newline (c : Char) (h : pyIsDigit c = true) :
    c ≠ '\n' := by
  intro hc
  subst hc
  exact absurd h (by decide)

/-- A string ending in a digit has no trailing newline to strip. -/
theorem stripTrailingNewline_digit_last (t ds : List Char) (hne : ds ≠ [])
    (h : ∀ c ∈ ds, pyIsDigit c = true) :
    stripTrailingNewline (t ++ ds) = t ++ ds := by
  have hlast : (t ++ ds).getLast? = some (ds.getLast hne) := by
    rw [List.getLast?_append_of_ne_nil t hne]
    exact List.getLast?_eq_getLast_of_ne_nil hne
  unfold stripTrailingNewline
  rw [hlast]
  exact if_neg (pyIsDigit_ne_newline _ (h _ (List.getLast_mem hne)))

theorem takeWhile_digits_append (ds t : List Char)
    (h : ∀ c ∈ ds, pyIsDigit c = true) :
    (ds ++ t).takeWhile pyIsDigit = ds ++ t.takeWhile pyIsDigit := by
  induction ds with
  | nil => simp
  | cons c cs ih =>
    have hc : pyIsDigit c := h c (List.mem_cons_self c cs)
    have hcs : ∀ x ∈ cs, pyIsDigit x := fun x hx => h x (List.mem_cons_of_mem c hx)
    simp [List.takeWhile_cons, hc, ih hcs]

theorem dropWhile_digits_append (ds t : List Char)
    (h : ∀ c ∈ ds, pyIsDigit c = true) :
    (ds ++ t).dropWhile pyIsDigit = t.dropWhile pyIsDigit := by
  induction ds with
  | nil => simp
  | cons c cs ih =>
    have hc : pyIsDigit c := h c (List.mem_cons_self c cs)
    have hcs : ∀ x ∈ cs, pyIsDigit x := fun x hx => h x (List.mem_cons_of_mem c hx)
    simp [List.dropWhile_cons, hc, ih hcs]

/-- A bare digit run matches the regex with no scale group. -/
theorem extractSizeToken_digits (ds : List Char) (hne : ds ≠ [])
    (h : ∀ c ∈ ds, pyIsDigit c = true) :
    extractSizeToken ds = some (digitsVal ds, none) := by
  have hstrip : stripTrailingNewline ds = ds := by
    have := stripTrailingNewline_digit_last [] ds hne h
    simpa using this
  have ht : ds.takeWhile pyIsDigit = ds := by
    have := takeWhile_digits_append ds [] h
    simpa using this
  have hd : ds.dropWhile pyIsDigit = [] := by
    have := dropWhile_digits_append ds [] h
    simpa using this
  unfold extractSizeToken
  simp [hstrip, ht, hd, hne]

/-- `N x N` with the digit run repeated verbatim matches with no scale. -/
theorem extractSizeToken_nxn (ds : List Char) (hne : ds ≠ [])
    (h : ∀ c ∈ ds, pyIsDigit c = true) :
    extractSizeToken (ds ++ 'x' :: ds) = some (digitsVal ds, none) := by
  have hx : pyIsDigit 'x' = false := by decide
  have hstrip : stripTrailingNewline (ds ++ 'x' :: ds) = ds ++ 'x' :: ds := by
    have := stripTrailingNewline_digit_last (ds ++ ['x']) ds hne h
    simpa [List.append_assoc] using this
  have ht : (ds ++ 'x' :: ds).takeWhile pyIsDigit = ds := by
    rw [takeWhile_digits_append ds _ h]
    simp [List.takeWhile_cons, hx]
  have hd : (ds ++ 'x' :: ds).dropWhile pyIsDigit = 'x' :: ds := by
    rw [dropWhile_digits_append ds _ h]
    simp [List.dropWhile_cons, hx]
  unfold extractSizeToken
  simp [hstrip, ht, hd, hne, List.take_length, List.drop_length]

/-- `N x N @ S` with the digit run repeated verbatim and a digit scale
matches with the scale group. -/
theorem extractSizeToken_nxn_at (ds ss : List Char) (hne : ds ≠ [])
    (h : ∀ c ∈ ds, pyIsDigit c = true) (hsne : ss ≠ [])
    (hs : ∀ c ∈ ss, pyIsDigit c = true) :
    extractSizeToken (ds ++ 'x' :: (ds ++ '@' :: ss)) =
      some (digitsVal ds, some (digitsVal ss)) := by
  have hx : pyIsDigit 'x' = false := by decide
  have hstrip : stripTrailingNewline (ds ++ 'x' :: (ds ++ '@' :: ss)) =
      ds ++ 'x' :: (ds ++ '@' :: ss) := by
    have := stripTrailingNewline_digit_last (((ds ++ ['x']) ++ ds) ++ ['@'])
      ss hsne hs
    simpa [List.append_assoc] using this
  have ht : (ds ++ 'x' :: (ds ++ '@' :: ss)).takeWhile pyIsDigit = ds := by
    rw [takeWhile_digits_append ds _ h]
    simp [List.takeWhile_cons, hx]
  have hd : (ds ++ 'x' :: (ds ++ '@' :: ss)).dropWhile pyIsDigit =
      'x' :: (ds ++ '@' :: ss) := by
    rw [dropWhile_digits_append ds _ h]
    simp [List.dropWhile_cons, hx]
  have htake : (ds ++ '@' :: ss).take ds.length = ds := List.take_left ds _
  have hdrop : (ds ++ '@' :: ss).drop ds.length = '@' :: ss := List.drop_left ds _
  have hall : ss.all pyIsDigit = true := by
    simpa [List.all_eq_true] using hs
  unfold extractSizeToken
  simp [hstrip, ht, hd, hne, htake, hdrop, hsne, hall]

/-- C1: For every valid size token, parsing yields the normalized
(size, scale) pair: a bare digit token `"N"` yields `size = N` and
`scale = 1`; `"NxN"` with both runs textually identical yields `size = N`
and `scale = 1`; `"NxN@S"` yields `size = N` and `scale = S`; and a token
whose two `N` runs differ, such as `"32x64"`, fails parsing. -/
theorem C1_valid_tokens_normalize (ds ss : List Char) (n s : Nat)
    (hne : ds ≠ []) (hdig : ∀ c ∈ ds, Char.isDigit c)
    (hsne : ss ≠ []) (hsdig : ∀ c ∈ ss, Char.isDigit c)
    (hn : digitsVal ds = n) (hs : digitsVal ss = s)
    (heven : n % 2 = 0) (hpos : 0 < n) (hspos : 0 < s) :
    IconSize.ofString (String.mk ds) = .ok ⟨n, 1⟩ ∧
    IconSize.ofString (String.mk (ds ++ 'x' :: ds)) = .ok ⟨n, 1⟩ ∧
    IconSize.ofString (String.mk (ds ++ 'x' :: (ds ++ '@' :: ss))) = .ok ⟨n, s⟩ ∧
    IconSize.ofString "32x64" = .error .invalidFormat := by
  have hlist : ∀ cs : List Char, (String.mk cs).toList = cs := fun _ => rfl
  have hn0 : ¬n = 0 := by omega
  have hs0 : ¬s = 0 := by omega
  have hpy : ∀ c ∈ ds, pyIsDigit c = true :=
    fun c hc => pyIsDigit_of_isDigit c (hdig c hc)
  have hspy : ∀ c ∈ ss, pyIsDigit c = true :=
    fun c hc => pyIsDigit_of_isDigit c (hsdig c hc)
  refine ⟨?_, ?_, ?_, by decide⟩
  · unfold IconSize.ofString
    rw [hlist, extractSizeToken_digits ds hne hpy, hn]
    simp [heven, hn0]
  · unfold IconSize.ofString
    rw [hlist, extractSizeToken_nxn ds hne hpy, hn]
    simp [heven, hn0]
  · unfold IconSize.ofString
    rw [hlist, extractSizeToken_nxn_at ds ss hne hpy hsne hspy, hn, hs]
    simp [heven, hn0, hs0]

/-- Witness for C1 at the tokens `"32"`, `"32x32"` and `"32x32@2"`. -/
theorem C1_valid_tokens_normalize_witness :
    IconSize.ofString (String.mk ['3', '2']) = .ok ⟨32, 1⟩ ∧
    IconSize.ofString (String.mk (['3', '2'] ++ 'x' :: ['3', '2'])) = .ok ⟨32, 1⟩ ∧
    IconSize.ofString
      (String.mk (['3', '2'] ++ 'x' :: (['3', '2'] ++ '@' :: ['2']))) = .ok ⟨32, 2⟩ ∧
    IconSize.ofString "32x64" = .error .invalidFormat :=
  C1_valid_tokens_normalize ['3', '2'] ['2'] 32 2 (by decide) (by decide)
    (by decide) (by decide) (by decide) (by decide) (by decide) (by decide)
    (by decide)

/-- C2: Parsing a size token fails exactly when the token violates the
regex grammar as CPython interprets it (the invalid-format error), or the
extracted size is odd or not strictly positive (the spec's `InvalidSize`
kind, covering the "even number" and "positive number" messages), or an
explicit scale is zero (the spec's `InvalidScale`; scales extracted from
digit strings cannot be negative).  Odd `N`, zero `N` and zero `S` are
rejected even when the grammar matched, and the three failure kinds are
distinguishable values of `SizeError`.  The grammar here is the
program's, not an idealized one: the final two conjuncts pin the CPython
behaviors down — a token with one trailing newline parses (`$`), as does
a token written with non-ASCII Unicode digits (`\d`), here `"٣٢"`, the
Arabic-Indic spelling of 32. -/
theorem C2_failure_taxonomy (t : String) :
    (IconSize.ofString t = .error .invalidFormat ↔
      extractSizeToken t.toList = none) ∧
    (∀ n os, extractSizeToken t.toList = some (n, os) →
      ((∃ e, IconSize.ofString t = .error e ∧ e.isInvalidSize = true) ↔
        (n % 2 = 1 ∨ n = 0)) ∧
      (IconSize.ofString t = .error .scaleNotPositive ↔
        (n % 2 = 0 ∧ 0 < n ∧ os = some 0)) ∧
      ((∃ sz, IconSize.ofString t = .ok sz) ↔
        (n % 2 = 0 ∧ 0 < n ∧ os ≠ some 0))) ∧
    SizeError.invalidFormat.isInvalidSize = false ∧
    SizeError.scaleNotPositive.isInvalidSize = false ∧
    IconSize.ofString "32\n" = .ok ⟨32, 1⟩ ∧
    IconSize.ofString "٣٢" = .ok ⟨32, 1⟩ := by
  refine ⟨?_, ?_, rfl, rfl, by decide, by decide⟩
  · unfold IconSize.ofString
    cases h : extractSizeToken t.toList with
    | none => simp
    | some v =>
      obtain ⟨n, os⟩ := v
      by_cases h2 : n % 2 = 0 <;> by_cases h0 : n = 0 <;>
        rcases os with _ | k <;>
        (try by_cases hk : k = 0) <;>
        simp [h2, h0, *]
  · intro n os h
    unfold IconSize.ofString
    rw [h]
    have hmod : n % 2 = 0 ∨ n % 2 = 1 := Nat.mod_two_eq_zero_or_one n
    by_cases h2 : n % 2 = 0 <;> by_cases h0 : n = 0 <;>
      rcases os with _ | k <;>
      (try by_cases hk : k = 0) <;>
      simp [SizeError.isInvalidSize, h2, h0, *] <;>
      omega

/-- Witness for C2 at the token `"32x32@0"`. -/
theorem C2_failure_taxonomy_witness :
    IconSize.ofString "32x32@0" = .error .scaleNotPositive ↔
      (32 % 2 = 0 ∧ 0 < 32 ∧ (some 0 : Option Nat) = some 0) :=
  (((C2_failure_taxonomy "32x32@0").2.1 32 (some 0) (by decide)).2.1)

/-! ## Lemmas about the size ordering and sort -/

/-- The ordering the spec describes: primary key `size` ascending,
secondary key `scale` ascending. -/
def sizeThenScaleLE (a b : IconSize) : Prop :=
  a.size < b.size ∨ (a.size = b.size ∧ a.scale ≤ b.scale)

theorem lt_eq_false_iff (a b : IconSize) :
    IconSize.lt b a = false ↔ sizeThenScaleLE a b := by
  unfold IconSize.lt sizeThenScaleLE
  by_cases h : b.size = a.size <;> simp [h] <;> omega

theorem lt_eq_true_imp_le (a b : IconSize) (h : IconSize.lt a b = true) :
    sizeThenScaleLE a b := by
  unfold IconSize.lt at h
  unfold sizeThenScaleLE
  by_cases hs : a.size = b.size <;> (simp [hs] at h ⊢; omega)

theorem sizeThenScaleLE_trans {a b c : IconSize}
    (h₁ : sizeThenScaleLE a b) (h₂ : sizeThenScaleLE b c) :
    sizeThenScaleLE a c := by
  unfold sizeThenScaleLE at *
  omega

theorem mem_insertSorted (x z : IconSize) (l : List IconSize) :
    z ∈ insertSorted x l ↔ z = x ∨ z ∈ l := by
  induction l with
  | nil => simp [insertSorted]
  | cons y ys ih =>
    unfold insertSorted
    by_cases h : IconSize.lt x y <;> simp [h, ih] <;> tauto

theorem insertSorted_perm (x : IconSize) (l : List IconSize) :
    (insertSorted x l).Perm (x :: l) := by
  induction l with
  | nil => simp [insertSorted]
  | cons y ys ih =>
    unfold insertSorted
    by_cases h : IconSize.lt x y
    · simp [h]
    · rw [if_neg h]
      exact (ih.cons y).trans (List.Perm.swap x y ys)

theorem insertSorted_pairwise (x : IconSize) (l : List IconSize)
    (h : l.Pairwise sizeThenScaleLE) :
    (insertSorted x l).Pairwise sizeThenScaleLE := by
  induction l with
  | nil => simp [insertSorted]
  | cons y ys ih =>
    unfold insertSorted
    rcases List.pairwise_cons.mp h with ⟨hy, hys⟩
    by_cases hlt : IconSize.lt x y
    · simp only [hlt, if_pos]
      refine List.pairwise_cons.mpr ⟨?_, h⟩
      intro z hz
      rcases List.mem_cons.mp hz with rfl | hz
      · exact lt_eq_true_imp_le x z hlt
      · exact sizeThenScaleLE_trans (lt_eq_true_imp_le x y hlt) (hy z hz)
    · rw [if_neg hlt]
      have hlt' : IconSize.lt x y = false := by
        simpa using hlt
      refine List.pairwise_cons.mpr ⟨?_, ih hys⟩
      intro z hz
      rcases (mem_insertSorted x z ys).mp hz with rfl | hz
      · exact (lt_eq_false_iff y z).mp hlt'
      · exact hy z hz

theorem pySort_perm (l : List IconSize) : (pySort l).Perm l := by
  induction l with
  | nil => simp [pySort]
  | cons x xs ih =>
    unfold pySort at *
    exact (insertSorted_perm x _).trans (ih.cons x)

theorem pySort_pairwise (l : List IconSize) :
    (pySort l).Pairwise sizeThenScaleLE := by
  induction l with
  | nil => simp [pySort]
  | cons x xs ih => exact insertSorted_pairwise x _ ih

/-- C5: Sorting a list of parsed `IconSize` values orders them by `size`
ascending and then by `scale` ascending (the resulting list is a
permutation of the input that is pairwise ordered for that key); the list
`[64x1, 32x2, 32x1]` sorts to `[32x1, 32x2, 64x1]`; and
`convert_args_to_settings` sorts the parsed `--size` list this way before
the install loop receives it. -/
theorem C5_sizes_sorted (tokens : List String) (sizes out : List IconSize)
    (hp : tokens.mapM IconSize.ofString = .ok sizes)
    (hr : resolveIconSizes tokens = .ok out) :
    out = pySort sizes ∧ out.Perm sizes ∧ out.Pairwise sizeThenScaleLE ∧
    pySort [⟨64, 1⟩, ⟨32, 2⟩, ⟨32, 1⟩] = [⟨32, 1⟩, ⟨32, 2⟩, ⟨64, 1⟩] := by
  have hout : out = pySort sizes := by
    unfold resolveIconSizes at hr
    rw [hp] at hr
    simpa [Except.bind] using hr.symm
  subst hout
  exact ⟨rfl, pySort_perm sizes, pySort_pairwise sizes, by decide⟩

/-- Witness for C5 at the token list `["64x64", "32x32@2", "32"]`. -/
theorem C5_sizes_sorted_witness :
    ([⟨32, 1⟩, ⟨32, 2⟩, ⟨64, 1⟩] : List IconSize) =
        pySort [⟨64, 1⟩, ⟨32, 2⟩, ⟨32, 1⟩] ∧
      ([⟨32, 1⟩, ⟨32, 2⟩, ⟨64, 1⟩] : List IconSize).Perm
        [⟨64, 1⟩, ⟨32, 2⟩, ⟨32, 1⟩] ∧
      ([⟨32, 1⟩, ⟨32, 2⟩, ⟨64, 1⟩] : List IconSize).Pairwise sizeThenScaleLE ∧
      pySort [⟨64, 1⟩, ⟨32, 2⟩, ⟨32, 1⟩] = [⟨32, 1⟩, ⟨32, 2⟩, ⟨64, 1⟩] :=
  C5_sizes_sorted ["64x64", "32x32@2", "32"] [⟨64, 1⟩, ⟨32, 2⟩, ⟨32, 1⟩]
    [⟨32, 1⟩, ⟨32, 2⟩, ⟨64, 1⟩] (by decide) (by decide)

/-- C4: For a raster (non-SVG) source, resizing to a target `IconSize`
equal to the source's current pixel dimensions returns the pixel-identical
`Image.copy()` of the source image, with no resampling applied; for any
other target dimensions the result is `Image.resize` with the Lanczos
filter (the call site omits the filter argument, so the default
`Image.Resampling.LANCZOS` applies).  In both cases the source object is
returned unchanged — a resize call never mutates it. -/
theorem C4_raster_resize (svg2png : List Nat → Nat → Nat → Option (List Nat))
    (pilOpen : List Nat → Option PILImage)
    (pilResize : PILImage → Nat → Nat → Resampling → PILImage)
    (self : IconImage) (sz : IconSize) (im : PILImage)
    (hsvg : self.is_svg = false) (him : self.img = some im) :
    ((im.width = sz.size ∧ im.height = sz.size) →
      self.resize_image_as_copy_default svg2png pilOpen pilResize sz =
        .ok (im.copy, self)) ∧
    (¬(im.width = sz.size ∧ im.height = sz.size) →
      self.resize_image_as_copy_default svg2png pilOpen pilResize sz =
        .ok (pilResize im sz.size sz.size .lanczos, self)) ∧
    im.copy = im := by
  have hgs : self.get_image_size = .ok ((im.width : Int), (im.height : Int)) := by
    unfold IconImage.get_image_size
    rw [hsvg, him]
    simp
  unfold IconImage.resize_image_as_copy_default IconImage.resize_image_as_copy
  rw [hsvg, hgs, him]
  refine ⟨?_, ?_, rfl⟩
  · rintro ⟨hw, hh⟩
    simp [hw, hh]
  · intro hne
    have : ¬((im.width : Int) = (sz.size : Int) ∧ (im.height : Int) = (sz.size : Int)) := by
      simpa [Int.natCast_inj] using hne
    simp only [this, if_neg, Bool.false_eq_true]
    simp

/-- Witness for C4 at a 64x64 raster image and the targets 64 and 32. -/
theorem C4_raster_resize_witness :
    IconImage.resize_image_as_copy_default (fun _ _ _ => none) (fun _ => none)
        (fun i w h _ => ⟨w, h, i.pixels⟩)
        ⟨"icon", none, none, some ⟨64, 64, [7]⟩⟩ ⟨64, 1⟩ =
        .ok (⟨64, 64, [7]⟩, ⟨"icon", none, none, some ⟨64, 64, [7]⟩⟩) ∧
      IconImage.resize_image_as_copy_default (fun _ _ _ => none) (fun _ => none)
        (fun i w h _ => ⟨w, h, i.pixels⟩)
        ⟨"icon", none, none, some ⟨64, 64, [7]⟩⟩ ⟨32, 1⟩ =
        .ok (⟨32, 32, [7]⟩, ⟨"icon", none, none, some ⟨64, 64, [7]⟩⟩) :=
  ⟨(C4_raster_resize (fun _ _ _ => none) (fun _ => none) (fun i w h _ => ⟨w, h, i.pixels⟩)
      ⟨"icon", none, none, some ⟨64, 64, [7]⟩⟩ ⟨64, 1⟩ ⟨64, 64, [7]⟩ rfl rfl).1
      ⟨rfl, rfl⟩,
    (C4_raster_resize (fun _ _ _ => none) (fun _ => none) (fun i w h _ => ⟨w, h, i.pixels⟩)
      ⟨"icon", none, none, some ⟨64, 64, [7]⟩⟩ ⟨32, 1⟩ ⟨64, 64, [7]⟩ rfl rfl).2.1
      (by decide)⟩

/-! ## Lemmas about the effect trace -/

theorem printedLines_append (a b : List Effect) :
    printedLines (a ++ b) = printedLines a ++ printedLines b := by
  unfold printedLines
  exact List.filterMap_append a b _

/-- The install loop prints exactly the quoted target line of each
requested size, in order, in simulate mode and in real mode alike. -/
theorem printedLines_installEffects (sim : Bool) (themeDir name : String)
    (sizes : List IconSize) :
    printedLines (installEffects sim themeDir name sizes) =
      sizes.map fun sz => "- \"" ++ iconTargetFile themeDir sz name ++ "\"" := by
  induction sizes with
  | nil => rfl
  | cons sz rest ih =>
    unfold installEffects at *
    simp only [List.map_cons, List.flatten_cons, printedLines_append, ih]
    unfold installStep printedLines
    cases sim <;> simp

/-- In simulate mode the install loop performs no directory creation and
no icon write. -/
theorem installEffects_simulate_no_writes (themeDir name : String)
    (sizes : List IconSize) :
    (installEffects true themeDir name sizes).countP Effect.isInstallWrite = 0 := by
  induction sizes with
  | nil => rfl
  | cons sz rest ih =>
    unfold installEffects at *
    simp only [List.map_cons, List.flatten_cons, List.countP_append, ih]
    simp [installStep, List.countP_cons, Effect.isInstallWrite]

/-- Every effect of the simulate-mode install loop is a resize event or a
print. -/
theorem installEffects_simulate_shape (themeDir name : String)
    (sizes : List IconSize) (e : Effect)
    (he : e ∈ installEffects true themeDir name sizes) :
    (∃ w h, e = Effect.resizeImage w h) ∨ ∃ s, e = Effect.print s := by
  induction sizes with
  | nil => simp [installEffects] at he
  | cons sz rest ih =>
    unfold installEffects at he
    simp only [List.map_cons, List.flatten_cons, List.mem_append] at he
    rcases he with he | he
    · simp [installStep] at he
      rcases he with rfl | rfl
      · exact Or.inl ⟨_, _, rfl⟩
      · exact Or.inr ⟨_, rfl⟩
    · exact ih he

/-- C6: Each requested size's computed target file path is
`<icon theme root>/<WxH[@S]>/apps/<name>.png`, where the icon theme root
is `${XDG_DATA_HOME:-$HOME/.local/share}/icons/hicolor`; parsing the
input sizes `["32", "64x64@2"]` for the name `"testapp"` and a home of
`/home/user` with `XDG_DATA_HOME` unset makes the install loop print the
target paths `.../32x32/apps/testapp.png` and `.../64x64@2/apps/testapp.png`,
in that order. -/
theorem C6_target_path_layout (env : Option String) (home name : String)
    (sim : Bool) :
    (∀ sz : IconSize,
      iconTargetFile (iconThemeDir env home) sz name =
        get_xdg_data_home env home ++ "/icons/hicolor/" ++ sz.get_name ++
          "/apps/" ++ name ++ ".png") ∧
    get_xdg_data_home none home = home ++ "/.local/share" ∧
    (∀ s : String, s ≠ "" → get_xdg_data_home (some s) home = s) ∧
    resolveIconSizes ["32", "64x64@2"] = .ok [⟨32, 1⟩, ⟨64, 2⟩] ∧
    printedLines (installEffects sim (iconThemeDir none "/home/user") "testapp"
        [⟨32, 1⟩, ⟨64, 2⟩]) =
      ["- \"/home/user/.local/share/icons/hicolor/32x32/apps/testapp.png\"",
       "- \"/home/user/.local/share/icons/hicolor/64x64@2/apps/testapp.png\""] := by
  refine ⟨?_, rfl, ?_, by decide, ?_⟩
  · intro sz
    unfold iconTargetFile iconParentDir iconThemeDir
    apply String.ext
    simp [String.data_append, List.append_assoc]
  · intro s hs
    simp [get_xdg_data_home, hs]
  · rw [printedLines_installEffects]
    decide

/-- Witness for C6: the inner XDG hypothesis discharged at
`XDG_DATA_HOME=/custom/data`. -/
theorem C6_target_path_layout_witness :
    get_xdg_data_home (some "/custom/data") "/home/user" = "/custom/data" :=
  (C6_target_path_layout (some "/custom/data") "/home/user" "testapp" true).2.2.1
    "/custom/data" (by decide)

/-- C7: A raster source whose width differs from its height is rejected
with the fatal non-square geometry error before any resize is performed
(the error print is the whole remaining trace, which contains no resize
event); an SVG source is exempt from the check and proceeds into the
pipeline. -/
theorem C7_square_check (img : IconImage) (sim : Bool) (sizes : List IconSize)
    (name themeDir scriptDir : String) (cachePresent : Bool) :
    (∀ w h : Int, img.is_svg = false → img.get_image_size = .ok (w, h) →
      w ≠ h →
      runPipeline img sim sizes name themeDir cachePresent scriptDir =
        [Effect.print ("Error: Icon dimensions are not square (" ++ toString w ++
          "x" ++ toString h ++ ").")] ∧
      ∀ e ∈ runPipeline img sim sizes name themeDir cachePresent scriptDir,
        e.isResize = false) ∧
    (img.is_svg = true →
      runPipeline img sim sizes name themeDir cachePresent scriptDir =
        installEffects sim themeDir name sizes ++
          cacheNotifierEffects themeDir cachePresent ++ removalEffects scriptDir) := by
  constructor
  · intro w h hsvg hsz hne
    have hrun : runPipeline img sim sizes name themeDir cachePresent scriptDir =
        [Effect.print ("Error: Icon dimensions are not square (" ++ toString w ++
          "x" ++ toString h ++ ").")] := by
      unfold runPipeline
      rw [hsz, hsvg]
      simp [hne]
    refine ⟨hrun, ?_⟩
    intro e he
    rw [hrun] at he
    simp at he
    subst he
    rfl
  · intro hsvg
    have hsz : img.get_image_size = .ok (-1, -1) := by
      unfold IconImage.get_image_size
      rw [hsvg]
      simp
    unfold runPipeline
    rw [hsz, hsvg]
    simp

/-- Witness for C7 at a 64x32 raster image. -/
theorem C7_square_check_witness :
    runPipeline ⟨"icon", none, none, some ⟨64, 32, [7]⟩⟩ true [⟨32, 1⟩] "testapp"
        "/root/icons/hicolor" false "/opt/iconix" =
      [Effect.print "Error: Icon dimensions are not square (64x32)."] :=
  ((C7_square_check ⟨"icon", none, none, some ⟨64, 32, [7]⟩⟩ true [⟨32, 1⟩]
    "testapp" "/root/icons/hicolor" "/opt/iconix" false).1 64 32 rfl rfl
    (by decide)).1

/-- C8: Constructing an `IconImage` requires exactly one of the three
inputs (file path, raw byte buffer, decoded image): supplying zero of
them, or more than one, fails with the fatal invalid-construction error,
and that error arises in no other way — with exactly one input,
construction either succeeds or fails with a different, later error
(file read, decode, empty buffer). -/
theorem C8_exactly_one_input (readFile : String → Option (List Nat))
    (decode : List Nat → Option PILImage) (id : String)
    (path : Option String) (rawBytes : Option ByteBuf) (img : Option PILImage) :
    mkIconImage readFile decode id path rawBytes img =
        .error .invalidConstruction ↔
      inputCount path rawBytes img ≠ 1 := by
  constructor
  · intro h
    by_contra hc
    unfold mkIconImage at h
    rw [if_neg (by omega)] at h
    iterate 6
      all_goals try split at h
      all_goals try (rename_i heq; split at heq)
      all_goals try simp_all
  · intro h
    unfold mkIconImage
    rw [if_pos h]

/-- Witness check for C8 (the theorem's sides are both decidable): zero
inputs and two inputs are rejected, one input is not rejected this way. -/
theorem C8_exactly_one_input_witness :
    mkIconImage (fun _ => some [1]) (fun _ => some ⟨1, 1, [0]⟩) "x" none none
        none = .error .invalidConstruction ∧
      mkIconImage (fun _ => some [1]) (fun _ => some ⟨1, 1, [0]⟩) "x"
        (some "/a/b.png") (some ⟨[1], 0⟩) none = .error .invalidConstruction ∧
      mkIconImage (fun _ => some [1]) (fun _ => some ⟨1, 1, [0]⟩) "x"
        (some "/a/b.png") none none ≠ .error .invalidConstruction :=
  ⟨(C8_exactly_one_input (fun _ => some [1]) (fun _ => some ⟨1, 1, [0]⟩) "x"
      none none none).mpr (by decide),
    (C8_exactly_one_input (fun _ => some [1]) (fun _ => some ⟨1, 1, [0]⟩) "x"
      (some "/a/b.png") (some ⟨[1], 0⟩) none).mpr (by decide),
    fun h =>
      absurd ((C8_exactly_one_input (fun _ => some [1]) (fun _ => some ⟨1, 1, [0]⟩)
        "x" (some "/a/b.png") none none).mp h) (by decide)⟩

/-! ## Lemmas about the download loop -/

theorem flatten_readChunks (cs : Nat) (hcs : 0 < cs) :
    ∀ l : List Nat, (readChunks cs l).flatten = l := by
  have key : ∀ n, ∀ l : List Nat, l.length ≤ n → (readChunks cs l).flatten = l := by
    intro n
    induction n with
    | zero =>
      intro l hl
      have : l = [] := by
        cases l
        · rfl
        · simp at hl
      subst this
      rw [readChunks]
      simp
    | succ n ih =>
      intro l hl
      rw [readChunks]
      by_cases hemp : l = []
      · simp [hemp]
      · rw [if_neg (by simp [hemp]; omega)]
        have hdrop : (l.drop cs).length ≤ n := by
          have : 0 < l.length := List.length_pos.mpr hemp
          simp only [List.length_drop]
          omega
        rw [List.flatten_cons, ih (l.drop cs) hdrop, List.take_append_drop]
  exact fun l => key l.length l le_rfl

/-- C9: The downloader raises the fatal download-failed error on any
non-200 HTTP response; on a 200 response (with any positive chunk size,
such as the default 8192) it returns the in-memory buffer whose contents
are the concatenation of all chunks read — that is, the whole response
body — positioned at its start. -/
theorem C9_download_contract (resp : HttpResponse) (chunkSize : Nat) :
    (resp.code ≠ 200 →
      download_with_progress resp chunkSize = .error .downloadFailed) ∧
    (resp.code = 200 → 0 < chunkSize →
      download_with_progress resp chunkSize =
        .ok ⟨(readChunks chunkSize resp.body).flatten, 0⟩ ∧
      download_with_progress resp chunkSize = .ok ⟨resp.body, 0⟩) := by
  constructor
  · intro h
    unfold download_with_progress
    rw [if_pos h]
  · intro h200 hcs
    have hne : ¬resp.code ≠ 200 := by omega
    unfold download_with_progress
    rw [if_neg hne]
    exact ⟨rfl, by rw [flatten_readChunks chunkSize hcs]⟩

/-- Witness for C9: a 404 response fails; a 200 response with body
`[1,2,3,4,5]` read in chunks of 2 returns exactly that body at
position 0. -/
theorem C9_download_contract_witness :
    download_with_progress ⟨404, none, [1]⟩ 8192 = .error .downloadFailed ∧
      download_with_progress ⟨200, some 5, [1, 2, 3, 4, 5]⟩ 2 =
        .ok ⟨[1, 2, 3, 4, 5], 0⟩ :=
  ⟨(C9_download_contract ⟨404, none, [1]⟩ 8192).1 (by decide),
    ((C9_download_contract ⟨200, some 5, [1, 2, 3, 4, 5]⟩ 2).2 rfl
      (by decide)).2⟩

/-- C10: For an `IconImage` holding a file path, the vector/raster
decision depends only on the path's lower-cased suffix being `".svg"` —
the equation holds for every raw-byte and image field, so the contents
are never sniffed, and `".SVG"` lowercases to `".svg"`; the 4096-byte
case-sensitive `<svg` sniff is what runs when there is no path but raw
bytes are present. -/
theorem C10_svg_detection (id p : String) :
    (∀ (raw : Option ByteBuf) (img : Option PILImage),
      IconImage.is_svg ⟨id, some p, raw, img⟩ = (get_file_suffix p == ".svg")) ∧
    (∀ (b : ByteBuf) (img : Option PILImage),
      IconImage.is_svg ⟨id, none, some b, img⟩ =
        bytesContain svgMarker (b.data.take 4096)) ∧
    get_file_suffix "/tmp/icon.SVG" = ".svg" ∧
    bytesContain svgMarker [60, 83, 86, 71] = false := by
  exact ⟨fun _ _ => rfl, fun _ _ => rfl, by decide, by decide⟩

/-- C3 (counterexample): as stated, the claim is false — with simulate
enabled the pipeline still performs a filesystem write at the icon theme
root: the cache notifier runs during simulations too, rewriting the theme
root's modification timestamp (`os.utime`), and invoking the external
cache-refresh command when present.  At the concrete run below the trace
contains that timestamp write, so the number of filesystem writes at or
under the theme root is not zero. -/
theorem C3_counterexample :
    Effect.utime "/home/user/.local/share/icons/hicolor" ∈
        runPipeline ⟨"Official Discord Icon", none, some ⟨[137, 80], 0⟩,
          some ⟨64, 64, [0]⟩⟩ true [⟨32, 1⟩] "testapp"
          "/home/user/.local/share/icons/hicolor" true "/opt/iconix" ∧
      (runPipeline ⟨"Official Discord Icon", none, some ⟨[137, 80], 0⟩,
          some ⟨64, 64, [0]⟩⟩ true [⟨32, 1⟩] "testapp"
          "/home/user/.local/share/icons/hicolor" true "/opt/iconix").countP
        (Effect.isFsWriteUnder "/home/user/.local/share/icons/hicolor") ≠ 0 := by
  constructor
  · decide
  · decide

/-- C3 (amended): With simulate enabled, the install loop performs no
directory creation and no icon-file write at all — in particular none
under the icon theme root — while every computed target icon path is
still printed, in order, and the removal-instructions file is still
written next to the program.  The cache-notification step, however, still
runs during simulation, so the theme root's modification timestamp is
rewritten (and the external cache-refresh command is still invoked when
present). -/
theorem C3_simulate_frame (img : IconImage) (sizes : List IconSize)
    (name themeDir scriptDir : String) (cachePresent : Bool) (w h : Int)
    (hsz : img.get_image_size = .ok (w, h))
    (hok : img.is_svg = true ∨ w = h) :
    (runPipeline img true sizes name themeDir cachePresent
        scriptDir).countP Effect.isInstallWrite = 0 ∧
    printedLines (runPipeline img true sizes name themeDir cachePresent
        scriptDir) =
      sizes.map (fun sz => "- \"" ++ iconTargetFile themeDir sz name ++ "\"") ∧
    Effect.writeText (scriptDir ++ "/how_to_remove.txt") ∈
      runPipeline img true sizes name themeDir cachePresent scriptDir ∧
    Effect.utime themeDir ∈
      runPipeline img true sizes name themeDir cachePresent scriptDir := by
  have hcond : (!img.is_svg && decide (w ≠ h)) = false := by
    rcases hok with h1 | h1 <;> simp [h1]
  have hrun : runPipeline img true sizes name themeDir cachePresent scriptDir =
      installEffects true themeDir name sizes ++
        cacheNotifierEffects themeDir cachePresent ++ removalEffects scriptDir := by
    unfold runPipeline
    rw [hsz]
    simp only [hcond, Bool.false_eq_true, if_neg, Bool.not_eq_true]
    simp
  rw [hrun]
  refine ⟨?_, ?_, ?_, ?_⟩
  · simp only [List.countP_append, installEffects_simulate_no_writes]
    cases cachePresent <;>
      simp [cacheNotifierEffects, removalEffects, List.countP_cons,
        Effect.isInstallWrite]
  · simp only [printedLines_append, printedLines_installEffects]
    cases cachePresent <;>
      simp [cacheNotifierEffects, removalEffects, printedLines]
  · simp [removalEffects]
  · simp [cacheNotifierEffects]

/-- Witness for C3 (amended) at a square 64x64 raster source with one
requested size. -/
theorem C3_simulate_frame_witness :
    (runPipeline ⟨"icon", none, none, some ⟨64, 64, [0]⟩⟩ true [⟨32, 1⟩]
        "testapp" "/home/user/.local/share/icons/hicolor" false
        "/opt/iconix").countP Effect.isInstallWrite = 0 ∧
      printedLines (runPipeline ⟨"icon", none, none, some ⟨64, 64, [0]⟩⟩ true
          [⟨32, 1⟩] "testapp" "/home/user/.local/share/icons/hicolor" false
          "/opt/iconix") =
        [⟨32, 1⟩].map (fun sz => "- \"" ++
          iconTargetFile "/home/user/.local/share/icons/hicolor" sz "testapp" ++
          "\"") ∧
      Effect.writeText ("/opt/iconix" ++ "/how_to_remove.txt") ∈
        runPipeline ⟨"icon", none, none, some ⟨64, 64, [0]⟩⟩ true [⟨32, 1⟩]
          "testapp" "/home/user/.local/share/icons/hicolor" false "/opt/iconix" ∧
      Effect.utime "/home/user/.local/share/icons/hicolor" ∈
        runPipeline ⟨"icon", none, none, some ⟨64, 64, [0]⟩⟩ true [⟨32, 1⟩]
          "testapp" "/home/user/.local/share/icons/hicolor" false "/opt/iconix" :=
  C3_simulate_frame ⟨"icon", none, none, some ⟨64, 64, [0]⟩⟩ [⟨32, 1⟩] "testapp"
    "/home/user/.local/share/icons/hicolor" "/opt/iconix" false 64 64 rfl
    (Or.inr rfl)

end Iconix
